import Mathlib

/-!
Shallow embedding of the persistence / drawing-session core of the
collaborative drawing board (src/src/components/DrawingBoard.jsx and the
near-identical variant src/unnamed/part_000).

Modelling conventions:
* Each React state variable that the core logic reads or writes is a field
  of `AppState`; presentation-only state (dark mode, dropdown visibility,
  slider positions) is omitted.
* The Supabase backend is modelled by `DB`: a list of `drawings` rows, a
  list of `drawing_strokes` rows, and a counter `nextId` from which the
  server assigns both the `id` and the `created_at` timestamp of a newly
  inserted drawing row (server timestamps are strictly increasing).
* Every network call is non-deterministic at the caller; its outcome is an
  explicit `Except String Unit` (or `Except String User`) argument carrying
  the error message on failure, mirroring the `{ data, error }` results and
  `if (error) throw error` pattern of the source.  `try { ... } catch` is a
  `match` on that outcome.
* JavaScript truthiness of the fetched `canvas_data` string (`null` and the
  empty string are falsy) is `canvasDataTruthy`.
* The canvas pixel buffer is the list of paint operations applied since the
  last full `clearRect`; `clearCanvas` resets it to `[]`.  `toDataURL` is
  an injective-by-construction string encoder `encodeCanvas`.
* `draw` additionally returns the ordered trace of its effects, so that the
  order of the local pixel mutation relative to the stroke-log append is a
  provable fact.
* `Math.round x` is `⌊x + 1/2⌋` on rationals; storing into a
  `Uint8ClampedArray` clamps to `[0, 255]` and rounds ties to even
  (`clampU8`).
-/

namespace DrawingBoard

/-- An authenticated Supabase user: `user.id` and `user.email`. -/
structure User where
  id : String
  email : String
deriving DecidableEq, Repr

/-- The value held by the `currentDrawingId` React state: either a
server-assigned row id or the local fallback string `temp-` + `Date.now()`
synthesized by `createNewDrawing` when the insert fails. -/
inductive CurId where
  | db (n : Nat)
  | temp (now : Nat)
deriving DecidableEq, Repr

/-- String rendering of a current-drawing id, as it would appear in the
JavaScript `currentDrawingId` variable. -/
def CurId.str : CurId → String
  | .db n => toString n
  | .temp t => "temp-" ++ toString t

/-- One paint operation applied to the canvas 2d context: a stroked line
segment ending at `(x, y)` (the `lineTo` / `stroke` pair of `draw`), or a
`drawImage` of a decoded snapshot string. -/
inductive PaintOp where
  | segment (x y : ℚ) (color : String) (width : Nat)
  | image (data : String)
deriving DecidableEq, Repr

/-- The canvas pixel buffer, represented by the list of paint operations
applied since the last whole-canvas `clearRect`. -/
abbrev Canvas : Type := List PaintOp

/-- A freshly cleared (blank) canvas. -/
def blankCanvas : Canvas := []

/-- String encoding of one paint operation, used by `encodeCanvas`. -/
def encodePaintOp : PaintOp → String
  | .segment x y c w =>
      "seg(" ++ toString x ++ "," ++ toString y ++ "," ++ c ++ "," ++ toString w ++ ")"
  | .image d => "img(" ++ d ++ ")"

/-- Model of `canvas.toDataURL()`: a deterministic string serialization of
the current buffer contents. -/
def encodeCanvas (c : Canvas) : String :=
  "data:image/png;base64," ++ String.intercalate ";" (c.map encodePaintOp)

/-- One row of the `drawings` table: `id`, `name`, `created_at` (both
server-assigned), `created_by`, `is_public`, `canvas_data` (nullable). -/
structure DrawingRow where
  id : Nat
  name : String
  created_at : Nat
  created_by : String
  is_public : Bool
  canvas_data : Option String
deriving DecidableEq, Repr

/-- One row of the `drawing_strokes` table, exactly the object passed to
the insert in `draw` (`drawing_id` is the raw `currentDrawingId`, which may
be null). -/
structure StrokeRow where
  drawing_id : Option CurId
  user_id : String
  x : Int
  y : Int
  color : String
  brush_size : Nat
deriving DecidableEq, Repr

/-- The backend: the two tables plus the counter from which the server
assigns ids and creation timestamps. -/
structure DB where
  drawings : List DrawingRow
  strokes : List StrokeRow
  nextId : Nat
deriving DecidableEq, Repr

/-- Server-side insert into `drawings`: assigns `id` and `created_at` from
the counter, sets `is_public := true`, and appends the row. -/
def DB.insertDrawing (db : DB) (name : String) (createdBy : String)
    (canvasData : Option String) : DrawingRow × DB :=
  let row : DrawingRow :=
    { id := db.nextId, name := name, created_at := db.nextId,
      created_by := createdBy, is_public := true, canvas_data := canvasData }
  (row, { db with drawings := db.drawings ++ [row], nextId := db.nextId + 1 })

/-- Well-formedness of the backend: every stored id and timestamp is below
the counter and server-assigned timestamps are pairwise distinct. -/
def DB.Wf (db : DB) : Prop :=
  (∀ r ∈ db.drawings, r.id < db.nextId ∧ r.created_at < db.nextId) ∧
    (db.drawings.map (fun r => r.created_at)).Nodup

instance (db : DB) : Decidable db.Wf := by
  unfold DB.Wf; infer_instance

/-- A pointer event together with the bounding rectangle of the canvas:
`clientX/clientY` and `rect.left/rect.top` are floating coordinates. -/
structure Pointer where
  clientX : ℚ
  clientY : ℚ
  rectLeft : ℚ
  rectTop : ℚ
deriving DecidableEq, Repr

/-- JavaScript `Math.round`: round half toward positive infinity. -/
def jsRound (q : ℚ) : Int := ⌊q + 1 / 2⌋

/-- The component state relevant to the persistence core. -/
structure AppState where
  user : Option User
  savedDrawings : List DrawingRow
  currentDrawingId : Option CurId
  isDrawing : Bool
  currentColor : String
  brushSize : Nat
  message : String
  email : String
  password : String
  canvas : Canvas
  path : Option (ℚ × ℚ)
deriving DecidableEq, Repr

/-- One observable effect emitted by `draw`, in program order: a paint
operation on the canvas, a stroke-log append request, or a status-message
update. -/
inductive Eff where
  | paint (op : PaintOp)
  | append (row : StrokeRow)
  | msg (s : String)
deriving DecidableEq, Repr

/-- Descending comparison on the server creation timestamp, the order of
the `.order(created_at, ascending: false)` query. -/
def createdDesc (a b : DrawingRow) : Prop := b.created_at ≤ a.created_at

instance : DecidableRel createdDesc := fun a b =>
  inferInstanceAs (Decidable (b.created_at ≤ a.created_at))

instance : IsTotal DrawingRow createdDesc :=
  ⟨fun a b => (Nat.le_total b.created_at a.created_at).imp id id⟩

instance : IsTrans DrawingRow createdDesc :=
  ⟨fun _ _ _ hab hbc => Nat.le_trans hbc hab⟩

/-- Model of the `loadSavedDrawings` select: the full `drawings` table,
ordered by `created_at` descending, with no owner filter and no
pagination. -/
def listDrawings (db : DB) : List DrawingRow :=
  List.insertionSort createdDesc db.drawings

/-- JavaScript truthiness of a nullable string column: `null` and the empty
string are falsy. -/
def canvasDataTruthy : Option String → Bool
  | none => false
  | some s => !(s == "")

/-- JavaScript `a || d` for the (nullable) result of `prompt`: `null` and
the empty string fall back to the default. -/
def jsOrDefault (a : Option String) (d : String) : String :=
  match a with
  | none => d
  | some s => if s = "" then d else s

/-- Embedding of `loadSavedDrawings`: on success the list state becomes the
ordered full result set; on error only the status message is set. -/
def loadSavedDrawings (st : AppState) (db : DB) (res : Except String Unit) :
    AppState :=
  match res with
  | .ok _ => { st with savedDrawings := listDrawings db }
  | .error e => { st with message := "Error loading drawings: " ++ e }

/-- Embedding of `createNewDrawing`: no-op without a user; on insert
success the new row id becomes current; on insert failure the fallback
`temp-` + `Date.now()` placeholder becomes current. -/
def createNewDrawing (st : AppState) (db : DB) (now : Nat)
    (insertRes : Except String Unit) : AppState × DB :=
  match st.user with
  | none => (st, db)
  | some u =>
    match insertRes with
    | .ok _ =>
      let (row, db') :=
        db.insertDrawing ("Drawing " ++ toString now) u.id none
      ({ st with
          currentDrawingId := some (.db row.id),
          message := "New drawing created! ID: " ++ toString row.id }, db')
    | .error e =>
      ({ st with
          message := "Error creating drawing: " ++ e,
          currentDrawingId := some (.temp now) }, db)

/-- Embedding of `loadDrawing(drawingId)`.  The fetch result is a lookup in
the `drawings` table (or a network error when `netOk` is false).  When the
fetched `canvas_data` is truthy, an image decode is started; `decodeOk`
records whether the asynchronous decode completes, in which case the
`onload` callback clears the buffer and draws the image.  The current id
and the status message are set synchronously, before the decode
resolves. -/
def loadDrawing (st : AppState) (db : DB) (drawingId : Nat) (netOk : Bool)
    (decodeOk : Bool) : AppState :=
  let fetch : Except String DrawingRow :=
    if netOk then
      match db.drawings.find? (fun r => r.id == drawingId) with
      | some r => .ok r
      | none => .error "row not found"
    else .error "network failure"
  match fetch with
  | .error _ => { st with message := "Error loading drawing" }
  | .ok row =>
    if canvasDataTruthy row.canvas_data then
      let data := row.canvas_data.getD ""
      { st with
        canvas :=
          if decodeOk then blankCanvas ++ [PaintOp.image data] else st.canvas,
        currentDrawingId := some (.db drawingId),
        message := "Drawing loaded!" }
    else st

/-- Embedding of `startDrawing`: with no user, only the sign-in-required
status message is emitted; otherwise the drawing flag is set and a new path
is begun at the pointer position. -/
def startDrawing (st : AppState) (e : Pointer) : AppState :=
  match st.user with
  | none => { st with message := "Please sign in to start drawing!" }
  | some _ =>
    let x := e.clientX - e.rectLeft
    let y := e.clientY - e.rectTop
    { st with isDrawing := true, path := some (x, y) }

/-- Embedding of `draw`, with its ordered effect trace.  Guard: no-op when
not drawing or when no user is current.  Otherwise the segment is stroked
into the pixel buffer, then one stroke-log append is issued; a failed
append is swallowed by the catch with no state change beyond the already
applied pixels. -/
def draw (st : AppState) (db : DB) (e : Pointer)
    (appendRes : Except String Unit) : AppState × DB × List Eff :=
  match st.user, st.isDrawing with
  | some u, true =>
    let x := e.clientX - e.rectLeft
    let y := e.clientY - e.rectTop
    let seg := PaintOp.segment x y st.currentColor st.brushSize
    let st1 := { st with canvas := st.canvas ++ [seg], path := some (x, y) }
    let row : StrokeRow :=
      { drawing_id := st.currentDrawingId, user_id := u.id,
        x := jsRound x, y := jsRound y,
        color := st.currentColor, brush_size := st.brushSize }
    match appendRes with
    | .ok _ =>
      (st1, { db with strokes := db.strokes ++ [row] }, [.paint seg, .append row])
    | .error _ => (st1, db, [.paint seg, .append row])
  | _, _ => (st, db, [])

/-- Embedding of `stopDrawing`. -/
def stopDrawing (st : AppState) : AppState := { st with isDrawing := false }

/-- Embedding of `clearCanvas`: blanks the whole pixel buffer. -/
def clearCanvas (st : AppState) : AppState := { st with canvas := blankCanvas }

/-- Embedding of `saveDrawing`: guard on a current user; exports the
snapshot, prompts for a name (with the timestamp default), and inserts a
brand-new row; on success the new id becomes current and the list is
reloaded. -/
def saveDrawing (st : AppState) (db : DB) (now : Nat)
    (promptName : Option String) (insertRes : Except String Unit)
    (listRes : Except String Unit) : AppState × DB :=
  match st.user with
  | none => ({ st with message := "Please sign in first!" }, db)
  | some u =>
    let dataURL := encodeCanvas st.canvas
    let name := jsOrDefault promptName ("Drawing " ++ toString now)
    match insertRes with
    | .error e => ({ st with message := "Error saving drawing: " ++ e }, db)
    | .ok _ =>
      let (row, db') := db.insertDrawing name u.id (some dataURL)
      let st1 :=
        { st with
          message := "Drawing saved successfully!",
          currentDrawingId := some (.db row.id) }
      (loadSavedDrawings st1 db' listRes, db')

/-- Embedding of `signIn`: on provider failure only the status message is
set; on success the user is stored, the form fields are cleared, then the
drawing list is loaded and a brand-new drawing is created, in that
order. -/
def signIn (st : AppState) (db : DB) (authRes : Except String User)
    (listRes : Except String Unit) (insertRes : Except String Unit)
    (now : Nat) : AppState × DB :=
  match authRes with
  | .error e => ({ st with message := "Error signing in: " ++ e }, db)
  | .ok u =>
    let st1 :=
      { st with
        user := some u, message := "Signed in successfully!",
        email := "", password := "" }
    let st2 := loadSavedDrawings st1 db listRes
    createNewDrawing st2 db now insertRes

/-- Embedding of `signOut`: on provider failure only the error message is
set (early return); on success the identity, the drawing list and the
current id are cleared and the canvas is blanked. -/
def signOut (st : AppState) (res : Except String Unit) : AppState :=
  match res with
  | .error e => { st with message := "Error signing out: " ++ e }
  | .ok _ =>
    { st with
      user := none, savedDrawings := [], currentDrawingId := none,
      canvas := blankCanvas, message := "Signed out successfully" }

/-- Round to nearest with ties to even, on rationals. -/
def roundTE (q : ℚ) : Int :=
  let f := ⌊q⌋
  let r := q - f
  if r < 1 / 2 then f
  else if 1 / 2 < r then f + 1
  else if 2 ∣ f then f else f + 1

/-- Semantics of storing a number into a `Uint8ClampedArray` slot: clamp to
`[0, 255]`, then round to nearest with ties to even. -/
def clampU8 (q : ℚ) : Nat :=
  if q ≤ 0 then 0
  else if 255 ≤ q then 255
  else (roundTE q).toNat

/-- Per-channel computation of `handleAdjust` for one color channel: first
`data[i] = Math.min(255, data[i] * b)` (stored through the clamped array),
then `data[i] = ((data[i] - 128) * c + 128)` (stored again), with
`b = brightness / 100` and `c = contrast / 100`. -/
def adjChannel (brightness contrast : Nat) (ch : Nat) : Nat :=
  let b : ℚ := (brightness : ℚ) / 100
  let c : ℚ := (contrast : ℚ) / 100
  let v1 := clampU8 (min 255 ((ch : ℚ) * b))
  clampU8 (((v1 : ℚ) - 128) * c + 128)

/-- The `handleAdjust` pixel loop over the RGBA byte array: channels
`i`, `i+1`, `i+2` of every group of four are transformed, alpha is left
unchanged.  (An `ImageData` buffer length is always a multiple of four;
a shorter tail is left untouched.) -/
def adjustData (brightness contrast : Nat) : List Nat → List Nat
  | r :: g :: b :: a :: rest =>
      adjChannel brightness contrast r :: adjChannel brightness contrast g ::
        adjChannel brightness contrast b :: a ::
          adjustData brightness contrast rest
  | other => other

/-- Embedding of `handleAdjust`: applies the brightness-then-contrast
transform to the whole pixel buffer byte array. -/
def handleAdjust (brightness contrast : Nat) (data : List Nat) : List Nat :=
  adjustData brightness contrast data

/-- Canvas-local x coordinate of a pointer event. -/
def pointerX (e : Pointer) : ℚ := e.clientX - e.rectLeft

/-- Canvas-local y coordinate of a pointer event. -/
def pointerY (e : Pointer) : ℚ := e.clientY - e.rectTop

/-- The segment stroked onto the canvas by one `draw` sample. -/
def drawSeg (st : AppState) (e : Pointer) : PaintOp :=
  .segment (pointerX e) (pointerY e) st.currentColor st.brushSize

/-- The stroke row submitted to the log by one `draw` sample. -/
def drawRow (st : AppState) (u : User) (e : Pointer) : StrokeRow :=
  { drawing_id := st.currentDrawingId, user_id := u.id,
    x := jsRound (pointerX e), y := jsRound (pointerY e),
    color := st.currentColor, brush_size := st.brushSize }

/-- Recognizer for stroke-log append effects in a `draw` trace. -/
def isAppendEff : Eff → Bool
  | .append _ => true
  | _ => false

/-- Unfolding of `draw` when the guards pass: the segment is painted, the
path advances, exactly one append of `drawRow` is issued (landing in the
log only on success), and the trace lists the paint strictly before the
append. -/
theorem draw_active (st : AppState) (db : DB) (e : Pointer)
    (res : Except String Unit) (u : User) (hu : st.user = some u)
    (hd : st.isDrawing = true) :
    draw st db e res =
      ({ st with
          canvas := st.canvas ++ [drawSeg st e],
          path := some (pointerX e, pointerY e) },
        (match res with
          | .ok _ => { db with strokes := db.strokes ++ [drawRow st u e] }
          | .error _ => db),
        [.paint (drawSeg st e), .append (drawRow st u e)]) := by
  cases res <;>
    simp [draw, hu, hd, drawSeg, drawRow, pointerX, pointerY]

/-- Unfolding of `draw` when a guard fails: complete no-op with an empty
effect trace. -/
theorem draw_inactive (st : AppState) (db : DB) (e : Pointer)
    (res : Except String Unit)
    (hg : st.isDrawing = false ∨ st.user = none) :
    draw st db e res = (st, db, []) := by
  rcases hg with h | h
  · cases hu : st.user <;> simp [draw, h, hu]
  · simp [draw, h]

/-- Sample user for witnesses. -/
def uA : User := { id := "user-1", email := "a@ex.com" }

/-- Sample signed-in, actively drawing state for witnesses. -/
def stA : AppState :=
  { user := some uA, savedDrawings := [], currentDrawingId := some (.db 1),
    isDrawing := true, currentColor := "#ef4444", brushSize := 5,
    message := "", email := "", password := "",
    canvas := [], path := some (10, 10) }

/-- Sample signed-out state for witnesses. -/
def stOut : AppState :=
  { user := none, savedDrawings := [], currentDrawingId := none,
    isDrawing := false, currentColor := "#000000", brushSize := 5,
    message := "", email := "", password := "",
    canvas := [], path := none }

/-- Sample backend for witnesses. -/
def dbA : DB := { drawings := [], strokes := [], nextId := 1 }

/-- Sample pointer event at canvas point (10, 10) for witnesses. -/
def ptrA : Pointer :=
  { clientX := 10, clientY := 10, rectLeft := 0, rectTop := 0 }

/-- C5: for every pointer-move sample while actively drawing, the pixel
buffer is mutated (the segment is stroked) before the stroke-log append is
issued — the effect trace is exactly paint-then-append — and whatever the
append outcome, the status message is unchanged (failures are swallowed
silently) and the painted segment stays, so drawing is never
interrupted. -/
theorem C5_draw_paints_before_append_and_swallows_failure
    (st : AppState) (db : DB) (e : Pointer) (res : Except String Unit)
    (u : User) (hu : st.user = some u) (hd : st.isDrawing = true) :
    (draw st db e res).2.2 = [.paint (drawSeg st e), .append (drawRow st u e)] ∧
      (draw st db e res).1.canvas = st.canvas ++ [drawSeg st e] ∧
      (draw st db e res).1.message = st.message := by
  rw [draw_active st db e res u hu hd]
  exact ⟨rfl, rfl, rfl⟩

/-- Witness for C5 at a concrete input, with a failing append. -/
theorem C5_witness :
    stA.user = some uA ∧ stA.isDrawing = true ∧
      ((draw stA dbA ptrA (.error "net")).2.2 =
          [.paint (drawSeg stA ptrA), .append (drawRow stA uA ptrA)] ∧
        (draw stA dbA ptrA (.error "net")).1.canvas =
          stA.canvas ++ [drawSeg stA ptrA] ∧
        (draw stA dbA ptrA (.error "net")).1.message = stA.message) :=
  ⟨rfl, rfl,
    C5_draw_paints_before_append_and_swallows_failure stA dbA ptrA
      (.error "net") uA rfl rfl⟩

/-- C6: on provider success, `signOut` clears the identity, the in-memory
drawing list and the current-drawing id and blanks the canvas; on provider
failure it returns early, leaving all of that local state untouched (only
the error message is set). -/
theorem C6_signOut_atomic :
    (∀ st : AppState,
        signOut st (.ok ()) =
          { st with
              user := none, savedDrawings := [],
              currentDrawingId := none, canvas := blankCanvas,
              message := "Signed out successfully" }) ∧
      ∀ (st : AppState) (err : String),
        (signOut st (.error err)).user = st.user ∧
          (signOut st (.error err)).savedDrawings = st.savedDrawings ∧
          (signOut st (.error err)).currentDrawingId = st.currentDrawingId ∧
          (signOut st (.error err)).canvas = st.canvas := by
  exact ⟨fun st => rfl, fun st err => ⟨rfl, rfl, rfl, rfl⟩⟩

/-- C8: one committed stroke sample issues exactly one stroke-log append,
carrying the current drawing id, the user id, the endpoint coordinates
rounded to integers, and the color and brush size in effect; on append
success the log grows by exactly that row. -/
theorem C8_draw_appends_exactly_one_stroke
    (st : AppState) (db : DB) (e : Pointer) (res : Except String Unit)
    (u : User) (d : CurId) (hu : st.user = some u)
    (hd : st.isDrawing = true) (hc : st.currentDrawingId = some d) :
    (draw st db e res).2.2.filter isAppendEff =
        [.append
          { drawing_id := some d, user_id := u.id,
            x := jsRound (pointerX e), y := jsRound (pointerY e),
            color := st.currentColor, brush_size := st.brushSize }] ∧
      (res = .ok () →
        (draw st db e res).2.1.strokes =
          db.strokes ++
            [{ drawing_id := some d, user_id := u.id,
                x := jsRound (pointerX e), y := jsRound (pointerY e),
                color := st.currentColor, brush_size := st.brushSize }]) := by
  rw [draw_active st db e res u hu hd]
  constructor
  · simp [isAppendEff, drawRow, hc]
  · intro hres; subst hres; simp [drawRow, hc]

/-- Witness for C8: drawing at point (10, 10) with color #ef4444 and width
5 appends exactly one row with x = 10, y = 10, that color and that brush
size, against drawing id 1 and user user-1. -/
theorem C8_witness :
    stA.user = some uA ∧ stA.isDrawing = true ∧
      stA.currentDrawingId = some (.db 1) ∧
      (draw stA dbA ptrA (.ok ())).2.1.strokes =
        dbA.strokes ++
          [{ drawing_id := some (.db 1), user_id := "user-1", x := 10, y := 10,
              color := "#ef4444", brush_size := 5 }] := by
  refine ⟨rfl, rfl, rfl, ?_⟩
  have h :=
    (C8_draw_appends_exactly_one_stroke stA dbA ptrA (.ok ()) uA (.db 1)
        rfl rfl rfl).2 rfl
  rw [h]
  norm_num [jsRound, pointerX, pointerY, stA, ptrA, uA]

/-- C9: with no identity current, `startDrawing` only emits the
sign-in-required notice (the pixel buffer in particular is unchanged), and
`draw` with the drawing flag down or with no identity current is a complete
no-op on both the pixel buffer and the stroke log. -/
theorem C9_guards_noop :
    (∀ (st : AppState) (e : Pointer), st.user = none →
        startDrawing st e =
          { st with message := "Please sign in to start drawing!" }) ∧
      ∀ (st : AppState) (db : DB) (e : Pointer) (res : Except String Unit),
        st.isDrawing = false ∨ st.user = none →
        draw st db e res = (st, db, []) := by
  constructor
  · intro st e h; simp [startDrawing, h]
  · intro st db e res hg; exact draw_inactive st db e res hg

/-- Witness for C9 at concrete signed-out inputs. -/
theorem C9_witness :
    stOut.user = none ∧
      startDrawing stOut ptrA =
        { stOut with message := "Please sign in to start drawing!" } ∧
      draw stOut dbA ptrA (.ok ()) = (stOut, dbA, []) :=
  ⟨rfl, C9_guards_noop.1 stOut ptrA rfl,
    C9_guards_noop.2 stOut dbA ptrA (.ok ()) (Or.inl rfl)⟩

/-- C10: when `loadDrawing` successfully fetches a row whose `canvas_data`
is null or empty (JavaScript-falsy), the whole local state is returned
unchanged: no pixel change, the previous current-drawing id is kept, and no
message is emitted. -/
theorem C10_loadDrawing_empty_snapshot_noop
    (st : AppState) (db : DB) (drawingId : Nat) (row : DrawingRow)
    (decodeOk : Bool)
    (hfind : db.drawings.find? (fun r => r.id == drawingId) = some row)
    (hempty : canvasDataTruthy row.canvas_data = false) :
    loadDrawing st db drawingId true decodeOk = st := by
  simp [loadDrawing, hfind, hempty]

/-- Sample drawing row whose stored snapshot is the empty string. -/
def rowEmptyData : DrawingRow :=
  { id := 7, name := "Drawing 7", created_at := 7, created_by := "user-1",
    is_public := true, canvas_data := some "" }

/-- Sample backend holding only `rowEmptyData`. -/
def dbEmptyData : DB := { drawings := [rowEmptyData], strokes := [], nextId := 8 }

/-- Witness for C10: a stored row with an empty snapshot string leaves a
concrete state exactly as it was. -/
theorem C10_witness :
    (dbEmptyData.drawings.find? (fun r => r.id == 7) = some rowEmptyData) ∧
      canvasDataTruthy rowEmptyData.canvas_data = false ∧
      loadDrawing stA dbEmptyData 7 true true = stA :=
  ⟨by decide, by decide,
    C10_loadDrawing_empty_snapshot_noop stA dbEmptyData 7 rowEmptyData true
      (by decide) (by decide)⟩

/-- Unfolding of `createNewDrawing` on insert failure with a current user:
only the error message and the fallback current id change, and the backend
is untouched. -/
theorem createNewDrawing_error (st : AppState) (db : DB) (now : Nat)
    (u : User) (err : String) (hu : st.user = some u) :
    createNewDrawing st db now (.error err) =
      ({ st with
          message := "Error creating drawing: " ++ err,
          currentDrawingId := some (.temp now) }, db) := by
  simp [createNewDrawing, hu]

/-- C2: when the drawing-row insert fails, the controller synthesizes the
local placeholder id temp- + Date.now() and stores it as the current id;
the session stays authenticated with a non-empty current-drawing id, and a
subsequent stroke-extension sample from that state still paints its segment
and never surfaces an error (for any append outcome the message is
unchanged), so drawing continues. -/
theorem C2_create_failure_uses_placeholder
    (st : AppState) (db : DB) (now : Nat) (u : User) (err : String)
    (hu : st.user = some u) :
    createNewDrawing st db now (.error err) =
        ({ st with
            message := "Error creating drawing: " ++ err,
            currentDrawingId := some (.temp now) }, db) ∧
      CurId.str (.temp now) = "temp-" ++ toString now ∧
      (CurId.str (.temp now)).length ≠ 0 ∧
      ∀ (e : Pointer) (res : Except String Unit),
        (draw
            { st with
                message := "Error creating drawing: " ++ err,
                currentDrawingId := some (.temp now),
                isDrawing := true } db e res).1.canvas =
          st.canvas ++
            [drawSeg
              { st with
                  message := "Error creating drawing: " ++ err,
                  currentDrawingId := some (.temp now),
                  isDrawing := true } e] ∧
        (draw
            { st with
                message := "Error creating drawing: " ++ err,
                currentDrawingId := some (.temp now),
                isDrawing := true } db e res).1.message =
          "Error creating drawing: " ++ err := by
  refine ⟨createNewDrawing_error st db now u err hu, rfl, ?_, ?_⟩
  · show ("temp-" ++ toString now).length ≠ 0
    rw [String.length_append]
    have h5 : "temp-".length = 5 := rfl
    omega
  · intro e res
    rw [draw_active
      { st with
          message := "Error creating drawing: " ++ err,
          currentDrawingId := some (.temp now),
          isDrawing := true } db e res u hu rfl]
    exact ⟨rfl, rfl⟩

/-- Witness for C2 at a concrete input. -/
theorem C2_witness :
    stA.user = some uA ∧
      createNewDrawing stA dbA 42 (.error "storage down") =
        ({ stA with
            message := "Error creating drawing: " ++ "storage down",
            currentDrawingId := some (.temp 42) }, dbA) ∧
      (CurId.str (.temp 42)).length ≠ 0 :=
  ⟨rfl,
    (C2_create_failure_uses_placeholder stA dbA 42 uA "storage down" rfl).1,
    (C2_create_failure_uses_placeholder stA dbA 42 uA "storage down"
        rfl).2.2.1⟩

/-- Storing a byte value already in range through the clamped array is the
identity. -/
theorem clampU8_natCast (n : Nat) (h : n ≤ 255) : clampU8 (n : ℚ) = n := by
  unfold clampU8
  rcases Nat.eq_zero_or_pos n with h0 | hpos
  · subst h0; norm_num
  · have hn0 : ¬((n : ℚ) ≤ 0) := by
      rw [Nat.cast_nonpos]
      omega
    rw [if_neg hn0]
    rcases eq_or_lt_of_le h with h255 | hlt
    · rw [if_pos (by exact_mod_cast h255.ge)]
      omega
    · rw [if_neg (by exact_mod_cast not_le.mpr hlt)]
      unfold roundTE
      have hf : ⌊(n : ℚ)⌋ = (n : ℤ) := Int.floor_natCast n
      rw [hf]
      norm_num

/-- The per-channel transform at brightness 100, contrast 100 is the
identity on every in-range channel value. -/
theorem adjChannel_identity (ch : Nat) (h : ch ≤ 255) :
    adjChannel 100 100 ch = ch := by
  have hq : (ch : ℚ) ≤ 255 := by exact_mod_cast h
  unfold adjChannel
  norm_num
  rw [min_eq_right hq, clampU8_natCast ch h]
  exact clampU8_natCast ch h

/-- The `handleAdjust` loop at (100, 100) returns every in-range RGBA byte
array unchanged. -/
theorem adjustData_identity :
    ∀ data : List Nat, (∀ ch ∈ data, ch ≤ 255) →
      adjustData 100 100 data = data
  | [], _ => rfl
  | [_], _ => rfl
  | [_, _], _ => rfl
  | [_, _, _], _ => rfl
  | r :: g :: b :: a :: rest, h => by
    have hr := h r (by simp)
    have hg := h g (by simp)
    have hb := h b (by simp)
    have ih :=
      adjustData_identity rest (fun ch hc => h ch (by simp [hc]))
    simp [adjustData, adjChannel_identity r hr, adjChannel_identity g hg,
      adjChannel_identity b hb, ih]

/-- C7: the per-channel transform multiplies by b/100 (explicitly clamped
only on the upper end at 255) and then rescales around 128 by c/100, in
that order, and at brightness 100 / contrast 100 the whole transform leaves
every in-range channel value — and hence the whole pixel buffer —
unchanged. -/
theorem C7_adjust_100_100_is_identity :
    (∀ ch : Nat, ch ≤ 255 → adjChannel 100 100 ch = ch) ∧
      ∀ data : List Nat, (∀ ch ∈ data, ch ≤ 255) →
        handleAdjust 100 100 data = data :=
  ⟨adjChannel_identity, fun data h => adjustData_identity data h⟩

/-- Witness for C7 on a concrete two-pixel RGBA buffer. -/
theorem C7_witness :
    (∀ ch ∈ [0, 37, 128, 255, 254, 1, 77, 3], ch ≤ 255) ∧
      handleAdjust 100 100 [0, 37, 128, 255, 254, 1, 77, 3] =
        [0, 37, 128, 255, 254, 1, 77, 3] :=
  ⟨by decide,
    C7_adjust_100_100_is_identity.2 [0, 37, 128, 255, 254, 1, 77, 3]
      (by decide)⟩

/-- The row that a successful `saveDrawing` insert adds: the prompted (or
timestamp-default) name, public visibility, the exported snapshot of the
current canvas, the signed-in owner, and server-assigned id/timestamp. -/
def savedRowOf (st : AppState) (db : DB) (now : Nat) (pn : Option String)
    (u : User) : DrawingRow :=
  { id := db.nextId, name := jsOrDefault pn ("Drawing " ++ toString now),
    created_at := db.nextId, created_by := u.id, is_public := true,
    canvas_data := some (encodeCanvas st.canvas) }

/-- Unfolding of `saveDrawing` when a user is current and both the insert
and the list reload succeed. -/
theorem saveDrawing_ok (st : AppState) (db : DB) (now : Nat)
    (pn : Option String) (u : User) (hu : st.user = some u) :
    saveDrawing st db now pn (.ok ()) (.ok ()) =
      ({ st with
          message := "Drawing saved successfully!",
          currentDrawingId := some (.db db.nextId),
          savedDrawings := listDrawings
            { db with
                drawings := db.drawings ++ [savedRowOf st db now pn u],
                nextId := db.nextId + 1 } },
        { db with
            drawings := db.drawings ++ [savedRowOf st db now pn u],
            nextId := db.nextId + 1 }) := by
  simp [saveDrawing, hu, DB.insertDrawing, loadSavedDrawings, savedRowOf]

/-- C1: with an identity current, a successful `saveDrawing` exports the
current canvas snapshot into a brand-new row — appended to the table with a
fresh id, every pre-existing row (in particular the current drawing row)
left unchanged, never an update — and on success the new row id becomes the
current-drawing id and the drawing list is reloaded from the new table. -/
theorem C1_saveDrawing_always_inserts_new_row
    (st : AppState) (db : DB) (now : Nat) (pn : Option String) (u : User)
    (hu : st.user = some u) (hwf : db.Wf) :
    (saveDrawing st db now pn (.ok ()) (.ok ())).2.drawings =
        db.drawings ++ [savedRowOf st db now pn u] ∧
      (savedRowOf st db now pn u).canvas_data =
        some (encodeCanvas st.canvas) ∧
      (savedRowOf st db now pn u).created_by = u.id ∧
      (∀ r ∈ db.drawings, r.id ≠ (savedRowOf st db now pn u).id) ∧
      (∀ r ∈ db.drawings,
        r ∈ (saveDrawing st db now pn (.ok ()) (.ok ())).2.drawings) ∧
      (saveDrawing st db now pn (.ok ()) (.ok ())).2.strokes = db.strokes ∧
      (saveDrawing st db now pn (.ok ()) (.ok ())).1.currentDrawingId =
        some (.db (savedRowOf st db now pn u).id) ∧
      (saveDrawing st db now pn (.ok ()) (.ok ())).1.savedDrawings =
        listDrawings (saveDrawing st db now pn (.ok ()) (.ok ())).2 := by
  rw [saveDrawing_ok st db now pn u hu]
  refine ⟨rfl, rfl, rfl, ?_, ?_, rfl, rfl, rfl⟩
  · intro r hr
    have hid := (hwf.1 r hr).1
    show r.id ≠ db.nextId
    omega
  · intro r hr
    exact List.mem_append_left _ hr

/-- Witness for C1 at a concrete input. -/
theorem C1_witness :
    stA.user = some uA ∧ dbA.Wf ∧
      (saveDrawing stA dbA 99 (some "my pic") (.ok ()) (.ok ())).2.drawings =
        dbA.drawings ++ [savedRowOf stA dbA 99 (some "my pic") uA] :=
  ⟨rfl, by decide,
    (C1_saveDrawing_always_inserts_new_row stA dbA 99 (some "my pic") uA rfl
        (by decide)).1⟩

/-- The row inserted by the eager `createNewDrawing` after sign-in:
timestamp-default name, public, no snapshot, owned by the signed-in
user. -/
def signedInRow (u : User) (db : DB) (now : Nat) : DrawingRow :=
  { id := db.nextId, name := "Drawing " ++ toString now,
    created_at := db.nextId, created_by := u.id, is_public := true,
    canvas_data := none }

/-- Unfolding of `signIn` when authentication, the list query and the eager
insert all succeed. -/
theorem signIn_ok (st : AppState) (db : DB) (u : User) (now : Nat) :
    signIn st db (.ok u) (.ok ()) (.ok ()) now =
      ({ st with
          user := some u,
          message := "New drawing created! ID: " ++ toString db.nextId,
          email := "", password := "",
          savedDrawings := listDrawings db,
          currentDrawingId := some (.db db.nextId) },
        { db with
            drawings := db.drawings ++ [signedInRow u db now],
            nextId := db.nextId + 1 }) := by
  simp [signIn, loadSavedDrawings, createNewDrawing, DB.insertDrawing,
    signedInRow]

/-- The ordered list query returns the rows pairwise strictly descending in
creation timestamp whenever the stored timestamps are distinct. -/
theorem listDrawings_strictDesc (db : DB) (hwf : db.Wf) :
    (listDrawings db).Pairwise
      (fun a b => b.created_at < a.created_at) := by
  have hs : List.Sorted createdDesc (listDrawings db) :=
    List.sorted_insertionSort createdDesc db.drawings
  have hperm : (listDrawings db).Perm db.drawings :=
    List.perm_insertionSort createdDesc db.drawings
  have hnd : ((listDrawings db).map (fun r => r.created_at)).Nodup :=
    ((hperm.map _).nodup_iff).mpr hwf.2
  have hne : (listDrawings db).Pairwise
      (fun a b => a.created_at ≠ b.created_at) :=
    List.pairwise_map.mp hnd
  exact (hs.and hne).imp fun h => lt_of_le_of_ne h.1 h.2.symm

/-- C4 (amended): on every successful sign-in the controller loads the full
drawing list of all users — the query has no owner filter — ordered by
creation timestamp strictly descending with no pagination (the result is a
permutation of the whole table), and then eagerly inserts a brand-new
current drawing owned by the signed-in identity. -/
theorem C4_signIn_loads_all_then_creates
    (st : AppState) (db : DB) (u : User) (now : Nat) (hwf : db.Wf) :
    (signIn st db (.ok u) (.ok ()) (.ok ()) now).1.user = some u ∧
      (signIn st db (.ok u) (.ok ()) (.ok ()) now).1.savedDrawings =
        listDrawings db ∧
      ((signIn st db (.ok u) (.ok ()) (.ok ()) now).1.savedDrawings).Perm
        db.drawings ∧
      ((signIn st db (.ok u) (.ok ()) (.ok ()) now).1.savedDrawings).Pairwise
        (fun a b => b.created_at < a.created_at) ∧
      (signIn st db (.ok u) (.ok ()) (.ok ()) now).2.drawings =
        db.drawings ++ [signedInRow u db now] ∧
      (signedInRow u db now).created_by = u.id ∧
      (signIn st db (.ok u) (.ok ()) (.ok ()) now).1.currentDrawingId =
        some (.db (signedInRow u db now).id) := by
  rw [signIn_ok st db u now]
  exact ⟨rfl, rfl, List.perm_insertionSort createdDesc db.drawings,
    listDrawings_strictDesc db hwf, rfl, rfl, rfl⟩

/-- Witness for C4 (amended) at a concrete input. -/
theorem C4_witness :
    dbEmptyData.Wf ∧
      (signIn stOut dbEmptyData (.ok uA) (.ok ()) (.ok ()) 8).1.savedDrawings =
        listDrawings dbEmptyData :=
  ⟨by decide,
    (C4_signIn_loads_all_then_creates stOut dbEmptyData uA 8
        (by decide)).2.1⟩

/-- Sample row owned by a different identity, for the C4 counterexample. -/
def rowAlice : DrawingRow :=
  { id := 1, name := "Drawing 1", created_at := 1, created_by := "alice",
    is_public := true, canvas_data := none }

/-- Sample backend of `rowAlice` only. -/
def dbAlice : DB := { drawings := [rowAlice], strokes := [], nextId := 2 }

/-- Sample second identity for the C4 counterexample. -/
def uBob : User := { id := "bob", email := "b@ex.com" }

/-- Counterexample to C4 as stated: after a successful sign-in by bob, the
loaded list contains a drawing created by alice — the query loads every
drawing, not the signed-in identity's drawings. -/
theorem C4_counterexample :
    rowAlice ∈
        (signIn stOut dbAlice (.ok uBob) (.ok ()) (.ok ()) 9).1.savedDrawings ∧
      rowAlice.created_by ≠ uBob.id := by
  constructor
  · decide
  · decide

/-- Sample stored row with a non-empty snapshot string. -/
def rowImg : DrawingRow :=
  { id := 3, name := "Drawing 3", created_at := 3, created_by := "user-1",
    is_public := true, canvas_data := some "IMG" }

/-- Sample backend holding only `rowImg`. -/
def dbImg : DB := { drawings := [rowImg], strokes := [], nextId := 4 }

/-- Sample signed-in state whose canvas holds prior, non-blank content. -/
def stPrior : AppState :=
  { stA with canvas := [PaintOp.segment 1 2 "#000000" 5] }

/-- Unfolding of `loadDrawing` on a successful fetch of a row with a
non-empty stored snapshot: the current id and the loaded message are set
synchronously; the buffer is replaced (cleared, then the snapshot drawn)
only when the asynchronous decode completes, and keeps its prior contents
when the decode fails. -/
theorem C3_loadDrawing_amended
    (st : AppState) (db : DB) (drawingId : Nat) (row : DrawingRow)
    (s : String) (decodeOk : Bool)
    (hfind : db.drawings.find? (fun r => r.id == drawingId) = some row)
    (hdata : row.canvas_data = some s) (hs : s ≠ "") :
    (loadDrawing st db drawingId true decodeOk).currentDrawingId =
        some (.db drawingId) ∧
      (loadDrawing st db drawingId true decodeOk).message =
        "Drawing loaded!" ∧
      (decodeOk = true →
        (loadDrawing st db drawingId true decodeOk).canvas =
          blankCanvas ++ [PaintOp.image s]) ∧
      (decodeOk = false →
        (loadDrawing st db drawingId true decodeOk).canvas = st.canvas) := by
  have htruthy : canvasDataTruthy (some s) = true := by
    simp [canvasDataTruthy, hs]
  refine ⟨?_, ?_, ?_, ?_⟩
  · simp [loadDrawing, hfind, hdata, htruthy]
  · simp [loadDrawing, hfind, hdata, htruthy]
  · intro h; simp [loadDrawing, hfind, hdata, htruthy, h, blankCanvas]
  · intro h; simp [loadDrawing, hfind, hdata, htruthy, h]

/-- Witness for the amended C3 at a concrete input with a completing
decode. -/
theorem C3_witness :
    dbImg.drawings.find? (fun r => r.id == 3) = some rowImg ∧
      rowImg.canvas_data = some "IMG" ∧
      (loadDrawing stPrior dbImg 3 true true).canvas =
        blankCanvas ++ [PaintOp.image "IMG"] :=
  ⟨by decide, by decide,
    (C3_loadDrawing_amended stPrior dbImg 3 rowImg "IMG" true (by decide)
        (by decide) (by decide)).2.2.1 rfl⟩

/-- Counterexample to C3 as stated: the clear happens only inside the
decode-completion callback, so at a concrete state with a non-blank canvas
a failed decode leaves the prior content, not a blank canvas. -/
theorem C3_counterexample :
    (loadDrawing stPrior dbImg 3 true false).canvas = stPrior.canvas ∧
      (loadDrawing stPrior dbImg 3 true false).canvas ≠ blankCanvas ∧
      (loadDrawing stPrior dbImg 3 true false).currentDrawingId =
        some (.db 3) := by
  refine ⟨by decide, by decide, by decide⟩

end DrawingBoard
